import Mathlib

/-!
# Verification of `pg_stub.c` (grove/pg-stream)

`pg_stub.c` is a test-isolation shim: it defines NULL / no-op stand-ins for
the PostgreSQL server-internal symbols a pgrx extension's unit-test binary
references, so the dynamic linker can resolve them without a live server.

We embed the file shallowly:

* A C pointer is `Ptr := Option Nat` (`none` is `NULL`, `some a` an address).
* The shim's global variables form the structure `Globals`; the load-time
  initializers give `initGlobals`.
* Caller-visible memory (the `int` objects an out-parameter may point to) is
  a store `Nat → Int`.  `ShimState` bundles the globals with that store.
* Each C function becomes a Lean function taking its arguments and a
  `ShimState` and returning its result paired with the successor state,
  translated line by line from the C body.  Almost every body touches no
  state at all; the single exception is `SPI_getbinval`, whose body performs
  `if (isnull) *isnull = 1;` before returning `NULL`.
* C `int` becomes `Int`; `uint32_t` / `uint64_t` / `size_t` become `Nat`
  (no stub performs arithmetic, so no overflow reduction is needed).
* A C variadic tail (`...` after a format string) is modelled as a
  discarded `List Int` payload, matching the bodies, which ignore it.
-/

/-- A C pointer: `none` is `NULL`, `some a` an address. -/
abbrev Ptr := Option Nat

/-- The global variables `pg_stub.c` defines: nine memory-context pointers,
two error-handling pointers, and the two SPI globals. -/
structure Globals where
  CacheMemoryContext : Ptr
  CurrentMemoryContext : Ptr
  CurTransactionContext : Ptr
  ErrorContext : Ptr
  MessageContext : Ptr
  PortalContext : Ptr
  PostmasterContext : Ptr
  TopMemoryContext : Ptr
  TopTransactionContext : Ptr
  error_context_stack : Ptr
  PG_exception_stack : Ptr
  SPI_processed : Nat
  SPI_tuptable : Ptr
  deriving Repr, DecidableEq

/-- The load-time initializers of `pg_stub.c`: every pointer global is
`NULL` and `SPI_processed` is `0`. -/
def initGlobals : Globals :=
  ⟨none, none, none, none, none, none, none, none, none, none, none, 0, none⟩

/-- Program state visible to the shim: its globals plus the store of `int`
objects that caller-supplied pointers may address. -/
structure ShimState where
  globals : Globals
  mem : Nat → Int

/-- Store `v` into the `int` object at address `addr`. -/
def writeInt (s : ShimState) (addr : Nat) (v : Int) : ShimState :=
  ⟨s.globals, fun a => if a = addr then v else s.mem a⟩

/-! ## Memory allocation / MemoryContext functions -/

/-- `void *palloc0(size_t size) { (void)size; return NULL; }` -/
def palloc0 (size : Nat) (s : ShimState) : Ptr × ShimState := (none, s)

/-- `void *AllocSetContextCreateInternal(...)` — ignores all five arguments
and returns `NULL`. -/
def AllocSetContextCreateInternal (parent : Ptr) (name : String)
    (minContextSize initBlockSize maxBlockSize : Nat)
    (s : ShimState) : Ptr × ShimState := (none, s)

/-- `void MemoryContextDelete(void *ctx) { (void)ctx; }` -/
def MemoryContextDelete (ctx : Ptr) (s : ShimState) : ShimState := s

/-- `void *MemoryContextGetParent(void *ctx) { (void)ctx; return NULL; }` -/
def MemoryContextGetParent (ctx : Ptr) (s : ShimState) : Ptr × ShimState :=
  (none, s)

/-- `void pfree(void *ptr) { (void)ptr; }` -/
def pfree (ptr : Ptr) (s : ShimState) : ShimState := s

/-! ## Error data -/

/-- `void *CopyErrorData(void) { return NULL; }` -/
def CopyErrorData (s : ShimState) : Ptr × ShimState := (none, s)

/-- `void FreeErrorData(void *edata) { (void)edata; }` -/
def FreeErrorData (edata : Ptr) (s : ShimState) : ShimState := s

/-! ## Error reporting functions -/

/-- `int errcode(int sqlerrcode) { (void)sqlerrcode; return 0; }` -/
def errcode (sqlerrcode : Int) (s : ShimState) : Int × ShimState := (0, s)

/-- `int errmsg(const char *fmt, ...) { (void)fmt; return 0; }` -/
def errmsg (fmt : String) (varargs : List Int) (s : ShimState) :
    Int × ShimState := (0, s)

/-- `int errdetail(const char *fmt, ...) { (void)fmt; return 0; }` -/
def errdetail (fmt : String) (varargs : List Int) (s : ShimState) :
    Int × ShimState := (0, s)

/-- `int errhint(const char *fmt, ...) { (void)fmt; return 0; }` -/
def errhint (fmt : String) (varargs : List Int) (s : ShimState) :
    Int × ShimState := (0, s)

/-- `int errcontext_msg(const char *fmt, ...) { (void)fmt; return 0; }` -/
def errcontext_msg (fmt : String) (varargs : List Int) (s : ShimState) :
    Int × ShimState := (0, s)

/-- `int errstart(int elevel, const char *domain) { ... return 0; }` -/
def errstart (elevel : Int) (domain : String) (s : ShimState) :
    Int × ShimState := (0, s)

/-- `void errfinish(const char *filename, int lineno, const char *funcname)`
— ignores its arguments and does nothing. -/
def errfinish (filename : String) (lineno : Int) (funcname : String)
    (s : ShimState) : ShimState := s

/-! ## Transaction / type helpers -/

/-- `uint32_t GetCurrentTransactionIdIfAny(void) { return 0; }` -/
def GetCurrentTransactionIdIfAny (s : ShimState) : Nat × ShimState := (0, s)

/-- `int IsBinaryCoercible(uint32_t a, uint32_t b) { ... return 0; }` -/
def IsBinaryCoercible (a b : Nat) (s : ShimState) : Int × ShimState := (0, s)

/-- `char *format_type_extended(uint32_t oid, int32_t typmod, int flags)`
— ignores its arguments and returns `NULL`. -/
def format_type_extended (oid : Nat) (typmod : Int) (flags : Int)
    (s : ShimState) : Ptr × ShimState := (none, s)

/-! ## SPI functions -/

/-- `int SPI_connect(void) { return -1; }` -/
def SPI_connect (s : ShimState) : Int × ShimState := (-1, s)

/-- `int SPI_finish(void) { return -1; }` -/
def SPI_finish (s : ShimState) : Int × ShimState := (-1, s)

/-- `int SPI_execute(const char *cmd, int ro, long cnt) { ... return -1; }` -/
def SPI_execute (cmd : String) (ro : Int) (cnt : Int) (s : ShimState) :
    Int × ShimState := (-1, s)

/-- `int SPI_execute_with_args(const char *cmd, int nargs, void *argtypes,
void *values, const char *nulls, int ro, long cnt)` — ignores everything
and returns `-1`. -/
def SPI_execute_with_args (cmd : String) (nargs : Int)
    (argtypes : Ptr) (values : Ptr) (nulls : String)
    (ro : Int) (cnt : Int) (s : ShimState) : Int × ShimState := (-1, s)

/-- `void *SPI_getbinval(void *tuple, void *tupdesc, int fnumber,
int *isnull) { ... if (isnull) *isnull = 1; return NULL; }` -/
def SPI_getbinval (tuple tupdesc : Ptr) (fnumber : Int) (isnull : Ptr)
    (s : ShimState) : Ptr × ShimState :=
  match isnull with
  | some addr => (none, writeInt s addr 1)
  | none => (none, s)

/-- `uint32_t SPI_gettypeid(void *tupdesc, int fnumber) { ... return 0; }` -/
def SPI_gettypeid (tupdesc : Ptr) (fnumber : Int) (s : ShimState) :
    Nat × ShimState := (0, s)

/-- A concrete state for counterexamples: freshly initialized globals and an
all-zero store. -/
def exampleState : ShimState := ⟨initGlobals, fun _ => 0⟩

/-! ## Shared helper lemmas -/

/-- Whatever the out-pointer, `SPI_getbinval` returns the null handle. -/
theorem SPI_getbinval_ret_null (t d : Ptr) (f : Int) (p : Ptr)
    (s : ShimState) : (SPI_getbinval t d f p s).1 = none := by
  cases p <;> rfl

/-- Whatever the out-pointer, `SPI_getbinval` leaves the globals alone:
`writeInt` only touches the store. -/
theorem SPI_getbinval_keeps_globals (t d : Ptr) (f : Int) (p : Ptr)
    (s : ShimState) : (SPI_getbinval t d f p s).2.globals = s.globals := by
  cases p <;> rfl

/-! ## Claims -/

/-- C1: the SPI status-returning stand-ins return the fixed negative status
`-1` unconditionally: `SPI_connect` and `SPI_finish` for every state, and
`SPI_execute` / `SPI_execute_with_args` for every command string, read-only
flag, argument list, and row-limit. -/
theorem C1_spi_status_minus_one :
    (∀ s, (SPI_connect s).1 = -1) ∧
    (∀ s, (SPI_finish s).1 = -1) ∧
    (∀ cmd ro cnt s, (SPI_execute cmd ro cnt s).1 = -1) ∧
    (∀ cmd nargs argtypes values nulls ro cnt s,
      (SPI_execute_with_args cmd nargs argtypes values nulls ro cnt s).1
        = -1) := by
  and_intros <;> intros <;> rfl

/-- C2: for every tuple, tuple descriptor, and field number, `SPI_getbinval`
returns a null handle and sets the `int` object addressed by its `isnull`
out-parameter to `1` (true). -/
theorem C2_getbinval_null_and_isnull :
    ∀ tuple tupdesc fnumber addr s,
      (SPI_getbinval tuple tupdesc fnumber (some addr) s).1 = none ∧
      (SPI_getbinval tuple tupdesc fnumber (some addr) s).2.mem addr = 1 := by
  intro tuple tupdesc fnumber addr s
  refine ⟨rfl, ?_⟩
  simp [SPI_getbinval, writeInt]

/-- C3: every stand-in, on every well-typed argument tuple and state, is
total (it is a Lean function, so it cannot crash) and returns exactly its
single documented fixed sentinel — a null pointer, `0`, or `-1` — never a
non-null success-looking value. -/
theorem C3_fixed_sentinels :
    (∀ size s, (palloc0 size s).1 = none) ∧
    (∀ p n m i x s, (AllocSetContextCreateInternal p n m i x s).1 = none) ∧
    (∀ ctx s, (MemoryContextGetParent ctx s).1 = none) ∧
    (∀ s, (CopyErrorData s).1 = none) ∧
    (∀ c s, (errcode c s).1 = 0) ∧
    (∀ f v s, (errmsg f v s).1 = 0) ∧
    (∀ f v s, (errdetail f v s).1 = 0) ∧
    (∀ f v s, (errhint f v s).1 = 0) ∧
    (∀ f v s, (errcontext_msg f v s).1 = 0) ∧
    (∀ e d s, (errstart e d s).1 = 0) ∧
    (∀ s, (GetCurrentTransactionIdIfAny s).1 = 0) ∧
    (∀ a b s, (IsBinaryCoercible a b s).1 = 0) ∧
    (∀ o t f s, (format_type_extended o t f s).1 = none) ∧
    (∀ s, (SPI_connect s).1 = -1) ∧
    (∀ s, (SPI_finish s).1 = -1) ∧
    (∀ c r n s, (SPI_execute c r n s).1 = -1) ∧
    (∀ c n a v u r k s,
      (SPI_execute_with_args c n a v u r k s).1 = -1) ∧
    (∀ t d f p s, (SPI_getbinval t d f p s).1 = none) ∧
    (∀ d f s, (SPI_gettypeid d f s).1 = 0) := by
  and_intros <;> intros <;> try rfl
  apply SPI_getbinval_ret_null

/-- C4: every error-reporting stand-in (`errcode`, `errmsg`, `errdetail`,
`errhint`, `errcontext_msg`, `errstart`) returns the fixed sentinel `0` for
all arguments, and `errfinish` returns leaving the state unchanged. -/
theorem C4_error_reporting_zero :
    (∀ c s, errcode c s = (0, s)) ∧
    (∀ f v s, errmsg f v s = (0, s)) ∧
    (∀ f v s, errdetail f v s = (0, s)) ∧
    (∀ f v s, errhint f v s = (0, s)) ∧
    (∀ f v s, errcontext_msg f v s = (0, s)) ∧
    (∀ e d s, errstart e d s = (0, s)) ∧
    (∀ f l n s, errfinish f l n s = s) := by
  and_intros <;> intros <;> rfl

/-- C5: every allocation-style stand-in (`palloc0`,
`AllocSetContextCreateInternal`, `CopyErrorData`, `MemoryContextGetParent`,
`format_type_extended`) returns the null representation for every argument
tuple. -/
theorem C5_allocation_null :
    (∀ size s, (palloc0 size s).1 = none) ∧
    (∀ p n m i x s, (AllocSetContextCreateInternal p n m i x s).1 = none) ∧
    (∀ s, (CopyErrorData s).1 = none) ∧
    (∀ ctx s, (MemoryContextGetParent ctx s).1 = none) ∧
    (∀ o t f s, (format_type_extended o t f s).1 = none) := by
  and_intros <;> intros <;> rfl

/-- C6: every global the shim defines (the nine memory-context pointers,
`error_context_stack`, `PG_exception_stack`, `SPI_tuptable`, and the counter
`SPI_processed`) is initialized to the null/zero value, and no stand-in call
changes the globals. -/
theorem C6_globals_null_and_unmutated :
    (initGlobals =
      ⟨none, none, none, none, none, none, none, none, none,
       none, none, 0, none⟩) ∧
    (∀ size s, (palloc0 size s).2.globals = s.globals) ∧
    (∀ p n m i x s,
      (AllocSetContextCreateInternal p n m i x s).2.globals = s.globals) ∧
    (∀ ctx s, (MemoryContextDelete ctx s).globals = s.globals) ∧
    (∀ ctx s, (MemoryContextGetParent ctx s).2.globals = s.globals) ∧
    (∀ ptr s, (pfree ptr s).globals = s.globals) ∧
    (∀ s, (CopyErrorData s).2.globals = s.globals) ∧
    (∀ e s, (FreeErrorData e s).globals = s.globals) ∧
    (∀ c s, (errcode c s).2.globals = s.globals) ∧
    (∀ f v s, (errmsg f v s).2.globals = s.globals) ∧
    (∀ f v s, (errdetail f v s).2.globals = s.globals) ∧
    (∀ f v s, (errhint f v s).2.globals = s.globals) ∧
    (∀ f v s, (errcontext_msg f v s).2.globals = s.globals) ∧
    (∀ e d s, (errstart e d s).2.globals = s.globals) ∧
    (∀ f l n s, (errfinish f l n s).globals = s.globals) ∧
    (∀ s, (GetCurrentTransactionIdIfAny s).2.globals = s.globals) ∧
    (∀ a b s, (IsBinaryCoercible a b s).2.globals = s.globals) ∧
    (∀ o t f s, (format_type_extended o t f s).2.globals = s.globals) ∧
    (∀ s, (SPI_connect s).2.globals = s.globals) ∧
    (∀ s, (SPI_finish s).2.globals = s.globals) ∧
    (∀ c r n s, (SPI_execute c r n s).2.globals = s.globals) ∧
    (∀ c n a v u r k s,
      (SPI_execute_with_args c n a v u r k s).2.globals = s.globals) ∧
    (∀ t d f p s, (SPI_getbinval t d f p s).2.globals = s.globals) ∧
    (∀ d f s, (SPI_gettypeid d f s).2.globals = s.globals) := by
  and_intros <;> intros <;> try rfl
  apply SPI_getbinval_keeps_globals

/-- C7: every stand-in is deterministic and referentially transparent: its
return value depends only on its arguments, so two calls with the same
arguments — in any two states, i.e. at any two times or in any two runs —
return the same sentinel. -/
theorem C7_referential_transparency :
    (∀ size s₁ s₂, (palloc0 size s₁).1 = (palloc0 size s₂).1) ∧
    (∀ p n m i x s₁ s₂,
      (AllocSetContextCreateInternal p n m i x s₁).1 =
      (AllocSetContextCreateInternal p n m i x s₂).1) ∧
    (∀ ctx s₁ s₂,
      (MemoryContextGetParent ctx s₁).1 =
      (MemoryContextGetParent ctx s₂).1) ∧
    (∀ s₁ s₂, (CopyErrorData s₁).1 = (CopyErrorData s₂).1) ∧
    (∀ c s₁ s₂, (errcode c s₁).1 = (errcode c s₂).1) ∧
    (∀ f v s₁ s₂, (errmsg f v s₁).1 = (errmsg f v s₂).1) ∧
    (∀ f v s₁ s₂, (errdetail f v s₁).1 = (errdetail f v s₂).1) ∧
    (∀ f v s₁ s₂, (errhint f v s₁).1 = (errhint f v s₂).1) ∧
    (∀ f v s₁ s₂, (errcontext_msg f v s₁).1 = (errcontext_msg f v s₂).1) ∧
    (∀ e d s₁ s₂, (errstart e d s₁).1 = (errstart e d s₂).1) ∧
    (∀ s₁ s₂,
      (GetCurrentTransactionIdIfAny s₁).1 =
      (GetCurrentTransactionIdIfAny s₂).1) ∧
    (∀ a b s₁ s₂,
      (IsBinaryCoercible a b s₁).1 = (IsBinaryCoercible a b s₂).1) ∧
    (∀ o t f s₁ s₂,
      (format_type_extended o t f s₁).1 =
      (format_type_extended o t f s₂).1) ∧
    (∀ s₁ s₂, (SPI_connect s₁).1 = (SPI_connect s₂).1) ∧
    (∀ s₁ s₂, (SPI_finish s₁).1 = (SPI_finish s₂).1) ∧
    (∀ c r n s₁ s₂, (SPI_execute c r n s₁).1 = (SPI_execute c r n s₂).1) ∧
    (∀ c n a v u r k s₁ s₂,
      (SPI_execute_with_args c n a v u r k s₁).1 =
      (SPI_execute_with_args c n a v u r k s₂).1) ∧
    (∀ t d f p s₁ s₂,
      (SPI_getbinval t d f p s₁).1 = (SPI_getbinval t d f p s₂).1) ∧
    (∀ d f s₁ s₂, (SPI_gettypeid d f s₁).1 = (SPI_gettypeid d f s₂).1) := by
  and_intros <;> intros <;> try rfl
  rename_i p s₁ s₂
  rw [SPI_getbinval_ret_null, SPI_getbinval_ret_null]

/-- C8 counterexample: the claim that every shim function modifies no memory
outside the function fails at a concrete input: `SPI_getbinval` called with
the caller-supplied out-pointer `some 5` changes the `int` object at
address `5` from `0` to `1`. -/
theorem C8_counterexample :
    (SPI_getbinval none none 0 (some 5) exampleState).2.mem 5 ≠
      exampleState.mem 5 := by
  decide

/-- C8 (amended): every shim function other than `SPI_getbinval` is a pure,
side-effect-free mapping returning the state unchanged; `SPI_getbinval`
leaves the globals and every other memory location unchanged, its sole
effect being the write of `1` through a non-null `isnull` out-pointer (with
a null out-pointer it too leaves the state unchanged). -/
theorem C8_amended_frame :
    (∀ t d f addr s,
      (SPI_getbinval t d f (some addr) s).2.globals = s.globals ∧
      (SPI_getbinval t d f (some addr) s).2.mem addr = 1 ∧
      ∀ a, a ≠ addr →
        (SPI_getbinval t d f (some addr) s).2.mem a = s.mem a) ∧
    (∀ t d f s, (SPI_getbinval t d f none s).2 = s) ∧
    (∀ size s, (palloc0 size s).2 = s) ∧
    (∀ p n m i x s, (AllocSetContextCreateInternal p n m i x s).2 = s) ∧
    (∀ ctx s, MemoryContextDelete ctx s = s) ∧
    (∀ ctx s, (MemoryContextGetParent ctx s).2 = s) ∧
    (∀ ptr s, pfree ptr s = s) ∧
    (∀ s, (CopyErrorData s).2 = s) ∧
    (∀ e s, FreeErrorData e s = s) ∧
    (∀ c s, (errcode c s).2 = s) ∧
    (∀ f v s, (errmsg f v s).2 = s) ∧
    (∀ f v s, (errdetail f v s).2 = s) ∧
    (∀ f v s, (errhint f v s).2 = s) ∧
    (∀ f v s, (errcontext_msg f v s).2 = s) ∧
    (∀ e d s, (errstart e d s).2 = s) ∧
    (∀ f l n s, errfinish f l n s = s) ∧
    (∀ s, (GetCurrentTransactionIdIfAny s).2 = s) ∧
    (∀ a b s, (IsBinaryCoercible a b s).2 = s) ∧
    (∀ o t f s, (format_type_extended o t f s).2 = s) ∧
    (∀ s, (SPI_connect s).2 = s) ∧
    (∀ s, (SPI_finish s).2 = s) ∧
    (∀ c r n s, (SPI_execute c r n s).2 = s) ∧
    (∀ c n a v u r k s, (SPI_execute_with_args c n a v u r k s).2 = s) ∧
    (∀ d f s, (SPI_gettypeid d f s).2 = s) := by
  and_intros <;> intros <;> try rfl
  refine ⟨rfl, by simp [SPI_getbinval, writeInt], ?_⟩
  rename_i addr s
  intro a ha
  simp [SPI_getbinval, writeInt, ha]

/-- Witness for the amended C8 frame property at a concrete input: address
`3` differs from the out-pointer's address `5`, and the call leaves the
`int` object at `3` unchanged. -/
theorem C8_amended_frame_witness :
    (3 : Nat) ≠ 5 ∧
    (SPI_getbinval none none 0 (some 5) exampleState).2.mem 3 =
      exampleState.mem 3 :=
  ⟨by decide,
   (C8_amended_frame.1 none none 0 5 exampleState).2.2 3 (by decide)⟩

/-- C9: `SPI_getbinval` called with a `NULL` `isnull` out-pointer performs
no write (the store is guarded by the null check, so the state is
unchanged) and still returns `NULL`. -/
theorem C9_getbinval_null_pointer_safe :
    ∀ tuple tupdesc fnumber s,
      SPI_getbinval tuple tupdesc fnumber none s = (none, s) := by
  intros
  rfl

/-- C10: `IsBinaryCoercible` returns `0` (false) for every pair of type
OIDs, including when the two OIDs are equal. -/
theorem C10_binary_coercible_false :
    (∀ a b s, (IsBinaryCoercible a b s).1 = 0) ∧
    (∀ a s, (IsBinaryCoercible a a s).1 = 0) := by
  and_intros <;> intros <;> rfl
